import Mathlib

/-!
Shallow embedding of the authentication session manager of
`src/context/AuthContext.tsx` (mpc-mobile-rnn), together with the parts of
`src/config/auth.ts` and `src/types/index.ts` it depends on.

Conventions:
* Timestamps are `Int` milliseconds since the epoch (`Date.getTime()`).
* JavaScript truthiness on optional strings/numbers (empty string and `0`
  are falsy) is made explicit through `truthyString` / `truthyNat`.
* Runtime primitives that are not part of this repository (base64+JSON
  decoding of a JWT payload, `JSON.stringify`/`JSON.parse` of the stored
  token record, ISO-8601 `Date` conversions) are abstracted as a
  `JsRuntime` parameter.
* Each `await`ed external call (provider, browser, secure store) can either
  fulfil or reject; its outcome is an explicit `Except` parameter of the
  operation, and `try`/`catch`/`finally` blocks are translated
  branch-by-branch.
-/

namespace MpcAuth

/-! ### Data model (`src/types/index.ts`) -/

/-- `UserInfo` from `src/types/index.ts`. -/
structure UserInfo where
  sub : String
  email : Option String := none
  name : Option String := none
  preferred_username : Option String := none
  email_verified : Option Bool := none
  given_name : Option String := none
  family_name : Option String := none
deriving Repr, DecidableEq

/-- The claims of `JWTPayload` that `AuthContext.tsx` reads. -/
structure JWTPayload where
  sub : Option String := none
  email : Option String := none
  name : Option String := none
  preferred_username : Option String := none
  email_verified : Option Bool := none
  given_name : Option String := none
  family_name : Option String := none
  exp : Option Nat := none
deriving Repr, DecidableEq

/-- `StoredTokens` from `src/types/index.ts`: the record serialized into the
secure store (expiries as ISO-8601 strings). -/
structure StoredTokens where
  accessToken : String
  refreshToken : String
  accessTokenExpiresAt : String
  refreshTokenExpiresAt : String
deriving Repr, DecidableEq

/-- The in-memory session state of `AuthProvider`: the six `useState` cells. -/
structure Session where
  isLoading : Bool
  accessToken : Option String
  refreshToken : Option String
  user : Option UserInfo
  accessTokenExpiresAt : Option Int
  refreshTokenExpiresAt : Option Int
deriving Repr, DecidableEq

/-- The initial `useState` values of `AuthProvider` (lines 64-69). -/
def initialSession : Session :=
  { isLoading := true, accessToken := none, refreshToken := none,
    user := none, accessTokenExpiresAt := none, refreshTokenExpiresAt := none }

/-- The fields the provider may return from the token endpoint
(`AuthSession.TokenResponse`) that `AuthContext.tsx` reads. -/
structure TokenResponse where
  accessToken : Option String := none
  refreshToken : Option String := none
  expiresIn : Option Nat := none
deriving Repr, DecidableEq

/-- Result of `promptAsync()` as read by `login` (`result.type`,
`result.params.code`). -/
structure AuthRequestResult where
  rtype : String
  code : Option String := none
deriving Repr, DecidableEq

/-! ### JavaScript truthiness -/

/-- JS truthiness on an optional string: `undefined` and `""` are falsy. -/
def truthyString : Option String → Option String
  | some s => if s = "" then none else some s
  | none => none

/-- JS truthiness on an optional number: `undefined` and `0` are falsy. -/
def truthyNat : Option Nat → Option Nat
  | some n => if n = 0 then none else some n
  | none => none

/-! ### Runtime primitives external to the repository -/

/-- JavaScript runtime primitives used by `AuthContext.tsx` that are not code
of this repository: `atob` + `JSON.parse` applied to a JWT payload segment,
`JSON.stringify` / `JSON.parse` of a `StoredTokens` record, and ISO-8601
`Date` conversions. A parse that would throw is modelled as `none`. -/
structure JsRuntime where
  parseBase64Json : String → Option JWTPayload
  stringifyTokens : StoredTokens → String
  parseStoredTokens : String → Option StoredTokens
  parseDate : String → Int
  toISOString : Int → String

/-! ### Config (`src/config/auth.ts`) -/

/-- `authConfig` of `src/config/auth.ts` (default values). -/
structure AuthConfig where
  keycloakUrl : String
  keycloakRealm : String
  clientId : String
  redirectUrl : String
  postLogoutRedirectUrl : String
  scopes : List String
deriving Repr, DecidableEq

def authConfig : AuthConfig :=
  { keycloakUrl := "http://localhost:8080"
    keycloakRealm := "mpc"
    clientId := "mpc-mobile"
    redirectUrl := "com.mpcmobile.auth://callback"
    postLogoutRedirectUrl := "com.mpcmobile.auth://logout"
    scopes := ["openid", "profile", "email", "offline_access"] }

/-- The OIDC discovery document built by `getDiscoveryDocument`. -/
structure DiscoveryDocument where
  issuer : String
  authorizationEndpoint : String
  tokenEndpoint : String
  revocationEndpoint : String
  endSessionEndpoint : String
  userInfoEndpoint : String
deriving Repr, DecidableEq

def getDiscoveryDocument : DiscoveryDocument :=
  let baseUrl := authConfig.keycloakUrl ++ "/realms/" ++ authConfig.keycloakRealm
  { issuer := baseUrl
    authorizationEndpoint := baseUrl ++ "/protocol/openid-connect/auth"
    tokenEndpoint := baseUrl ++ "/protocol/openid-connect/token"
    revocationEndpoint := baseUrl ++ "/protocol/openid-connect/revoke"
    endSessionEndpoint := baseUrl ++ "/protocol/openid-connect/logout"
    userInfoEndpoint := baseUrl ++ "/protocol/openid-connect/userinfo" }

/-! ### Secure store (`expo-secure-store` key-value surface) -/

/-- The secure store: independently addressable key-value entries. -/
abbrev Store := List (String × String)

/-- `TOKENS_KEY` (AuthContext.tsx line 13). -/
def TOKENS_KEY : String := "auth_tokens"

/-- `TOKEN_REFRESH_INTERVAL` (AuthContext.tsx line 16), in milliseconds. -/
def TOKEN_REFRESH_INTERVAL : Int := 60000

/-- `SecureStore.setItemAsync`: write one entry, replacing any entry under
the same key. -/
def setItemAsync (store : Store) (key value : String) : Store :=
  (key, value) :: store.filter (fun e => e.1 ≠ key)

/-- `SecureStore.deleteItemAsync`: delete the entry under one key. -/
def deleteItemAsync (store : Store) (key : String) : Store :=
  store.filter (fun e => e.1 ≠ key)

/-- `SecureStore.getItemAsync`: read the entry under one key. -/
def getItemAsync (store : Store) (key : String) : Option String :=
  (store.find? (fun e => e.1 = key)).map Prod.snd

/-! ### JS string operations used by `decodeJWT`

`String.prototype.split` with a one-character separator and the global
one-character `replace` calls of line 41, written by structural recursion on
the character list so that proofs can evaluate them. -/

/-- JS `split` with a one-character separator, on the character list.
`"".split(sep)` is `[""]`. -/
def jsSplitChars (sep : Char) : List Char → List String
  | [] => [""]
  | c :: rest =>
      if c = sep then "" :: jsSplitChars sep rest
      else
        match jsSplitChars sep rest with
        | [] => [⟨[c]⟩]
        | w :: ws => ⟨c :: w.data⟩ :: ws

/-- JS `token.split(sep)` for a one-character separator. -/
def jsSplit (s : String) (sep : Char) : List String :=
  jsSplitChars sep s.data

/-- JS `s.replace(/c/g, d)` for one-character `c` and `d`. -/
def jsReplaceAll (s : String) (c d : Char) : String :=
  ⟨s.data.map (fun x => if x = c then d else x)⟩

/-! ### Helpers of `AuthContext.tsx` -/

/-- `decodeJWT` (lines 35-46): split on `.`; unless there are exactly three
segments return `null`; otherwise base64url-fix the payload segment and
decode it, any throw yielding `null`. -/
def decodeJWT (rt : JsRuntime) (token : String) : Option JWTPayload :=
  match jsSplit token '.' with
  | [_, payload, _] =>
      rt.parseBase64Json (jsReplaceAll (jsReplaceAll payload '-' '+') '_' '/')
  | _ => none

/-- `extractUserInfo` (lines 49-57); `payload.sub || ''` uses JS truthiness. -/
def extractUserInfo (payload : JWTPayload) : UserInfo :=
  { sub := (truthyString payload.sub).getD ""
    email := payload.email
    name := payload.name
    preferred_username := payload.preferred_username
    email_verified := payload.email_verified
    given_name := payload.given_name
    family_name := payload.family_name }

/-- `saveTokens` (lines 88-90): one `setItemAsync` of the JSON-serialized
record under `TOKENS_KEY`. -/
def saveTokens (rt : JsRuntime) (store : Store) (tokens : StoredTokens) : Store :=
  setItemAsync store TOKENS_KEY (rt.stringifyTokens tokens)

/-- `clearTokens` (lines 106-108): one `deleteItemAsync` of `TOKENS_KEY`. -/
def clearTokens (store : Store) : Store :=
  deleteItemAsync store TOKENS_KEY

/-- `loadTokens` (lines 93-103): read `TOKENS_KEY` and `JSON.parse` it; a
rejected read (`getThrows`) or a parse failure is caught and yields `null`. -/
def loadTokens (rt : JsRuntime) (getThrows : Bool) (store : Store) :
    Option StoredTokens :=
  if getThrows then none
  else (getItemAsync store TOKENS_KEY).bind rt.parseStoredTokens

/-- `setTokenState` (lines 111-126): set all four token cells, then decode
the access token; only when decoding succeeds is `user` overwritten. -/
def setTokenState (rt : JsRuntime) (access refresh : String)
    (accessExpiry refreshExpiry : Int) (s : Session) : Session :=
  let s1 := { s with
    accessToken := some access
    refreshToken := some refresh
    accessTokenExpiresAt := some accessExpiry
    refreshTokenExpiresAt := some refreshExpiry }
  match decodeJWT rt access with
  | some payload => { s1 with user := some (extractUserInfo payload) }
  | none => s1

/-! ### Operations -/

instance {ε α : Type} [DecidableEq ε] [DecidableEq α] :
    DecidableEq (Except ε α) := fun x y =>
  match x, y with
  | .error a, .error b =>
      if h : a = b then .isTrue (by rw [h]) else .isFalse (by simp [h])
  | .ok a, .ok b =>
      if h : a = b then .isTrue (by rw [h]) else .isFalse (by simp [h])
  | .error _, .ok _ => .isFalse (by simp)
  | .ok _, .error _ => .isFalse (by simp)

/-- Result of one operation: the session and store it leaves behind, and
whether the returned promise fulfilled (`.ok`) or rejected (`.error`). -/
structure OpResult where
  session : Session
  store : Store
  outcome : Except String Unit
deriving Repr, DecidableEq

/-- Outcomes of the external calls `logout` awaits. -/
structure LogoutEnv where
  revokeOutcome : Except String Unit
  deleteOutcome : Except String Unit
  endSessionOutcome : Except String Unit
deriving Repr, DecidableEq

/-- `logout` (lines 248-286). `setIsLoading(true)`; best-effort revocation
whose rejection is swallowed by the inner catch (it touches no state); clear
the five state cells; `clearTokens()`; best-effort end-session browser call;
every throw lands in the outer catch and the `finally` clears `isLoading`. -/
def logout (env : LogoutEnv) (s : Session) (store : Store) : OpResult :=
  -- The revocation call (lines 253-262) is attempted iff an access token is
  -- held and the discovery document names a revocation endpoint; its
  -- rejection is swallowed by the inner catch, so it affects nothing below.
  let _revokeAttempted : Bool :=
    s.accessToken.isSome && (getDiscoveryDocument.revocationEndpoint != "")
  let cleared : Session :=
    { isLoading := true, accessToken := none, refreshToken := none,
      user := none, accessTokenExpiresAt := none, refreshTokenExpiresAt := none }
  match env.deleteOutcome with
  | .error _ =>
      { session := { cleared with isLoading := false }, store := store,
        outcome := .ok () }
  | .ok _ =>
      { session := { cleared with isLoading := false },
        store := clearTokens store, outcome := .ok () }

/-- Outcomes of the external calls `refreshAccessToken` awaits, plus the
clock reading. -/
structure RefreshEnv where
  refreshOutcome : Except String TokenResponse
  saveOutcome : Except String Unit
  logoutEnv : LogoutEnv
  now : Int
deriving Repr, DecidableEq

/-- `refreshAccessToken` (lines 129-175). No refresh token: log and return.
Otherwise `AuthSession.refreshAsync`; on a truthy `accessToken` in the
response, compute the new expiries (JS truthiness on `expiresIn`, retained
`refreshTokenExpiresAt` or a 24h default), keep the old refresh token unless
the response carries a truthy new one, `setTokenState`, then `saveTokens`.
Any throw (refresh call or store write) lands in the catch, which awaits
`logout()`. -/
def refreshAccessToken (rt : JsRuntime) (env : RefreshEnv)
    (s : Session) (store : Store) : OpResult :=
  match s.refreshToken with
  | none => { session := s, store := store, outcome := .ok () }
  | some refreshTok =>
    match env.refreshOutcome with
    | .error _ => logout env.logoutEnv s store
    | .ok tokenResponse =>
      match truthyString tokenResponse.accessToken with
      | none => { session := s, store := store, outcome := .ok () }
      | some access =>
          let newAccessExpiry : Int :=
            match truthyNat tokenResponse.expiresIn with
            | some e => env.now + (e : Int) * 1000
            | none => env.now + 300000
          let newRefreshExpiry : Int :=
            match s.refreshTokenExpiresAt with
            | some d => d
            | none => env.now + 86400000
          let newRefresh : String :=
            match truthyString tokenResponse.refreshToken with
            | some r => r
            | none => refreshTok
          let s1 := setTokenState rt access newRefresh newAccessExpiry
            newRefreshExpiry s
          match env.saveOutcome with
          | .error _ => logout env.logoutEnv s1 store
          | .ok _ =>
              { session := s1
                store := saveTokens rt store
                  { accessToken := access, refreshToken := newRefresh,
                    accessTokenExpiresAt := rt.toISOString newAccessExpiry,
                    refreshTokenExpiresAt := rt.toISOString newRefreshExpiry }
                outcome := .ok () }

/-- `checkTokenExpiration` (lines 178-192): no-op without an access token and
expiry; refresh when `0 < timeUntilExpiry < 120000`; refresh when
`timeUntilExpiry <= 0`; otherwise no-op. -/
def checkTokenExpiration (rt : JsRuntime) (env : RefreshEnv)
    (s : Session) (store : Store) : OpResult :=
  match s.accessToken, s.accessTokenExpiresAt with
  | some _, some expiresAt =>
      let timeUntilExpiry := expiresAt - env.now
      if timeUntilExpiry < 120000 ∧ timeUntilExpiry > 0 then
        refreshAccessToken rt env s store
      else if timeUntilExpiry ≤ 0 then
        refreshAccessToken rt env s store
      else
        { session := s, store := store, outcome := .ok () }
  | _, _ => { session := s, store := store, outcome := .ok () }

/-- Outcomes of the external calls `login` awaits, plus the clock reading. -/
structure LoginEnv where
  promptOutcome : Except String AuthRequestResult
  exchangeOutcome : Except String TokenResponse
  saveOutcome : Except String Unit
  now : Int
deriving Repr, DecidableEq

/-- `login` (lines 195-245). `setIsLoading(true)`; `promptAsync()`; on a
`success` result with a truthy code, `exchangeCodeAsync`; when both returned
tokens are truthy, compute the expiries (JS truthiness on `expiresIn`; the
refresh expiry from the refresh token's own decodable `exp` claim, else a
24h default), `setTokenState`, `saveTokens`. Every throw is caught and only
logged; the `finally` clears `isLoading`. -/
def login (rt : JsRuntime) (env : LoginEnv) (s : Session) (store : Store) :
    OpResult :=
  let s0 := { s with isLoading := true }
  match env.promptOutcome with
  | .error _ =>
      { session := { s0 with isLoading := false }, store := store,
        outcome := .ok () }
  | .ok result =>
    if result.rtype = "success" ∧ (truthyString result.code).isSome then
      match env.exchangeOutcome with
      | .error _ =>
          { session := { s0 with isLoading := false }, store := store,
            outcome := .ok () }
      | .ok tokenResponse =>
        match truthyString tokenResponse.accessToken,
            truthyString tokenResponse.refreshToken with
        | some access, some refreshTok =>
            let accessExpiry : Int :=
              match truthyNat tokenResponse.expiresIn with
              | some e => env.now + (e : Int) * 1000
              | none => env.now + 300000
            let refreshPayload := decodeJWT rt refreshTok
            let refreshExpiry : Int :=
              match truthyNat (refreshPayload.bind (fun p => p.exp)) with
              | some e => (e : Int) * 1000
              | none => env.now + 86400000
            let s1 := setTokenState rt access refreshTok accessExpiry
              refreshExpiry s0
            match env.saveOutcome with
            | .error _ =>
                { session := { s1 with isLoading := false }, store := store,
                  outcome := .ok () }
            | .ok _ =>
                { session := { s1 with isLoading := false }
                  store := saveTokens rt store
                    { accessToken := access, refreshToken := refreshTok,
                      accessTokenExpiresAt := rt.toISOString accessExpiry,
                      refreshTokenExpiresAt := rt.toISOString refreshExpiry }
                  outcome := .ok () }
        | _, _ =>
            { session := { s0 with isLoading := false }, store := store,
              outcome := .ok () }
    else
      { session := { s0 with isLoading := false }, store := store,
        outcome := .ok () }

/-- Outcomes of the external calls cold-start restore awaits, plus the
clock reading. -/
structure InitEnv where
  getThrows : Bool
  deleteOutcome : Except String Unit
  now : Int
deriving Repr, DecidableEq

/-- `initializeAuth` (lines 289-325), run once from the initial state:
`loadTokens()`; nothing stored (or unreadable) leaves the state untouched;
otherwise parse both expiry strings; if the refresh expiry is in the future,
`setTokenState` from the stored values (and, when the access token is
already expired, re-set the refresh token cell to the same stored value);
else `clearTokens()`. The `finally` clears `isLoading`. -/
def initializeAuth (rt : JsRuntime) (env : InitEnv) (store : Store) : OpResult :=
  let s := initialSession
  match loadTokens rt env.getThrows store with
  | none =>
      { session := { s with isLoading := false }, store := store,
        outcome := .ok () }
  | some storedTokens =>
      let accessExpiry := rt.parseDate storedTokens.accessTokenExpiresAt
      let refreshExpiry := rt.parseDate storedTokens.refreshTokenExpiresAt
      if refreshExpiry > env.now then
        let s1 := setTokenState rt storedTokens.accessToken
          storedTokens.refreshToken accessExpiry refreshExpiry s
        let s2 :=
          if accessExpiry ≤ env.now then
            { s1 with refreshToken := some storedTokens.refreshToken }
          else s1
        { session := { s2 with isLoading := false }, store := store,
          outcome := .ok () }
      else
        match env.deleteOutcome with
        | .error _ =>
            { session := { s with isLoading := false }, store := store,
              outcome := .ok () }
        | .ok _ =>
            { session := { s with isLoading := false },
              store := clearTokens store, outcome := .ok () }

/-! ### Interleaving of the two refresh triggers

Two independent effects invoke `checkTokenExpiration`: the 60-second
interval (lines 328-338) and the AppState foreground-resume listener
(lines 341-353). Each invocation runs synchronously from its trigger to the
`await AuthSession.refreshAsync(...)` on line 136 — the first suspension
point — and the session cells are only written by the continuation after
that call resolves (lines 144-166). There is no in-flight flag anywhere in
`AuthContext.tsx`, so between one invocation issuing its token-endpoint
request and that request resolving, a second invocation reads the unchanged
session and may issue its own request. The small-step model below captures
exactly this: a trigger task is `ready` (fired, synchronous prefix not yet
run), `awaitingRefresh` (suspended on the token-endpoint call, with the
refresh token it captured on line 139), or `done`. -/

/-- Phase of one trigger's task. -/
inductive TriggerPhase where
  | ready
  | awaitingRefresh (capturedRefreshTok : String)
  | done
deriving Repr, DecidableEq

/-- The condition under which `checkTokenExpiration` (lines 185-191) calls
`refreshAccessToken`. -/
def wantsRefresh (now : Int) (s : Session) : Bool :=
  match s.accessToken, s.accessTokenExpiresAt with
  | some _, some expiresAt =>
      decide (expiresAt - now < 120000 ∧ expiresAt - now > 0)
        || decide (expiresAt - now ≤ 0)
  | _, _ => false

/-- State of the event loop: the session, the two trigger tasks, and
token-endpoint request counters (`inFlight` currently awaiting a response,
`issued` in total, `maxInFlight` the high-water mark of `inFlight`). -/
structure ConcState where
  session : Session
  inFlight : Nat
  issued : Nat
  maxInFlight : Nat
  timerTask : TriggerPhase
  resumeTask : TriggerPhase
deriving Repr, DecidableEq

/-- Advance one task to its next suspension point. A `ready` task runs
`checkTokenExpiration` and, when it reaches line 136, issues a
token-endpoint request and suspends; an `awaitingRefresh` task receives
`response` and runs the continuation of `refreshAccessToken`
(lines 144-166, the store write not tracked here). -/
def stepTask (rt : JsRuntime) (now : Int) (response : TokenResponse)
    (sess : Session) (inFlight issued maxIF : Nat) :
    TriggerPhase → TriggerPhase × Session × Nat × Nat × Nat
  | .ready =>
      if wantsRefresh now sess then
        match sess.refreshToken with
        | some refreshTok =>
            (.awaitingRefresh refreshTok, sess, inFlight + 1, issued + 1,
              max maxIF (inFlight + 1))
        | none => (.done, sess, inFlight, issued, maxIF)
      else (.done, sess, inFlight, issued, maxIF)
  | .awaitingRefresh refreshTok =>
      let sess' :=
        match truthyString response.accessToken with
        | none => sess
        | some access =>
            let newAccessExpiry : Int :=
              match truthyNat response.expiresIn with
              | some e => now + (e : Int) * 1000
              | none => now + 300000
            let newRefreshExpiry : Int :=
              match sess.refreshTokenExpiresAt with
              | some d => d
              | none => now + 86400000
            let newRefresh : String :=
              match truthyString response.refreshToken with
              | some r => r
              | none => refreshTok
            setTokenState rt access newRefresh newAccessExpiry
              newRefreshExpiry sess
      (.done, sess', inFlight - 1, issued, maxIF)
  | .done => (.done, sess, inFlight, issued, maxIF)

/-- Which trigger the event loop serves next. -/
inductive TriggerId where
  | timer
  | resume
deriving Repr, DecidableEq

/-- Serve one trigger. -/
def stepConc (rt : JsRuntime) (now : Int) (response : TokenResponse)
    (c : ConcState) : TriggerId → ConcState
  | .timer =>
      let (ph, sess, inF, iss, mx) :=
        stepTask rt now response c.session c.inFlight c.issued c.maxInFlight
          c.timerTask
      { c with timerTask := ph, session := sess, inFlight := inF,
               issued := iss, maxInFlight := mx }
  | .resume =>
      let (ph, sess, inF, iss, mx) :=
        stepTask rt now response c.session c.inFlight c.issued c.maxInFlight
          c.resumeTask
      { c with resumeTask := ph, session := sess, inFlight := inF,
               issued := iss, maxInFlight := mx }

/-- Run a schedule of trigger services. -/
def runSchedule (rt : JsRuntime) (now : Int) (response : TokenResponse)
    (c : ConcState) : List TriggerId → ConcState
  | [] => c
  | t :: rest => runSchedule rt now response (stepConc rt now response c t) rest

/-! ### Concrete sample data (for evaluating the theorems on inputs) -/

/-- A concrete `JsRuntime` on which every abstract primitive is trivial. -/
def trivialRuntime : JsRuntime :=
  { parseBase64Json := fun _ => none
    stringifyTokens := fun t =>
      t.accessToken ++ "|" ++ t.refreshToken ++ "|" ++
        t.accessTokenExpiresAt ++ "|" ++ t.refreshTokenExpiresAt
    parseStoredTokens := fun _ => none
    parseDate := fun _ => 0
    toISOString := fun _ => "" }

/-- A concrete stored-token record. -/
def sampleStoredTokens : StoredTokens :=
  { accessToken := "A", refreshToken := "R",
    accessTokenExpiresAt := "access-iso", refreshTokenExpiresAt := "refresh-iso" }

/-- A concrete `JsRuntime` whose store parser yields `sampleStoredTokens`,
with the access expiry parsing to 1000 and the refresh expiry to 2000. -/
def parsingRuntime : JsRuntime :=
  { parseBase64Json := fun _ => none
    stringifyTokens := fun _ => "blob"
    parseStoredTokens := fun _ => some sampleStoredTokens
    parseDate := fun s => if s = "access-iso" then 1000 else 2000
    toISOString := fun _ => "" }

/-- A concrete authenticated session. -/
def sampleAuthedSession : Session :=
  { isLoading := false, accessToken := some "A", refreshToken := some "R",
    user := none, accessTokenExpiresAt := some 1000000,
    refreshTokenExpiresAt := some 90000000 }

/-- A concrete store holding one persisted blob. -/
def sampleStore : Store := [(TOKENS_KEY, "blob")]

/-- A `LogoutEnv` in which every awaited call fulfils. -/
def okLogoutEnv : LogoutEnv :=
  { revokeOutcome := .ok (), deleteOutcome := .ok (),
    endSessionOutcome := .ok () }

/-- The session left behind by `logout` (all cells cleared, loading done). -/
def loggedOutSession : Session :=
  { isLoading := false, accessToken := none, refreshToken := none,
    user := none, accessTokenExpiresAt := none, refreshTokenExpiresAt := none }

/-! ### Basic lemmas -/

theorem logout_session_eq (env : LogoutEnv) (s : Session) (store : Store) :
    (logout env s store).session = loggedOutSession := by
  unfold logout
  cases env.deleteOutcome <;> rfl

theorem logout_outcome_ok (env : LogoutEnv) (s : Session) (store : Store) :
    (logout env s store).outcome = .ok () := by
  unfold logout
  cases env.deleteOutcome <;> rfl

theorem setTokenState_accessToken (rt : JsRuntime) (a r : String) (ae re : Int)
    (s : Session) : (setTokenState rt a r ae re s).accessToken = some a := by
  unfold setTokenState
  cases decodeJWT rt a <;> rfl

theorem setTokenState_refreshToken (rt : JsRuntime) (a r : String) (ae re : Int)
    (s : Session) : (setTokenState rt a r ae re s).refreshToken = some r := by
  unfold setTokenState
  cases decodeJWT rt a <;> rfl

theorem setTokenState_accessExpiry (rt : JsRuntime) (a r : String) (ae re : Int)
    (s : Session) :
    (setTokenState rt a r ae re s).accessTokenExpiresAt = some ae := by
  unfold setTokenState
  cases decodeJWT rt a <;> rfl

theorem setTokenState_refreshExpiry (rt : JsRuntime) (a r : String) (ae re : Int)
    (s : Session) :
    (setTokenState rt a r ae re s).refreshTokenExpiresAt = some re := by
  unfold setTokenState
  cases decodeJWT rt a <;> rfl

theorem setTokenState_isLoading (rt : JsRuntime) (a r : String) (ae re : Int)
    (s : Session) : (setTokenState rt a r ae re s).isLoading = s.isLoading := by
  unfold setTokenState
  cases decodeJWT rt a <;> rfl

theorem getItemAsync_setItemAsync_same (store : Store) (k v : String) :
    getItemAsync (setItemAsync store k v) k = some v := by
  simp [getItemAsync, setItemAsync, List.find?]

theorem getItemAsync_deleteItemAsync (store : Store) (k : String) :
    getItemAsync (deleteItemAsync store k) k = none := by
  induction store with
  | nil => rfl
  | cons e rest ih =>
      by_cases h : e.1 = k
      · simp [getItemAsync, deleteItemAsync, h]
      · simp [getItemAsync, deleteItemAsync, List.find?, h]

/-! ### Token-field atomicity -/

/-- `accessToken` and `refreshToken` are both present or both absent. -/
def tokensTogether (s : Session) : Prop :=
  s.accessToken.isSome = s.refreshToken.isSome

theorem tokensTogether_setTokenState (rt : JsRuntime) (a r : String)
    (ae re : Int) (s : Session) : tokensTogether (setTokenState rt a r ae re s) := by
  simp [tokensTogether, setTokenState_accessToken, setTokenState_refreshToken]

theorem tokensTogether_login (rt : JsRuntime) (env : LoginEnv) (s : Session)
    (store : Store) (h : tokensTogether s) :
    tokensTogether (login rt env s store).session := by
  unfold login
  cases env.promptOutcome with
  | error e => exact h
  | ok result =>
      dsimp only
      split
      · cases env.exchangeOutcome with
        | error e => exact h
        | ok tr =>
            dsimp only
            split
            · cases env.saveOutcome with
              | error e =>
                  simpa [tokensTogether] using
                    tokensTogether_setTokenState rt _ _ _ _ { s with isLoading := true }
              | ok u =>
                  simpa [tokensTogether] using
                    tokensTogether_setTokenState rt _ _ _ _ { s with isLoading := true }
            · exact h
      · exact h

theorem tokensTogether_refresh (rt : JsRuntime) (env : RefreshEnv) (s : Session)
    (store : Store) (h : tokensTogether s) :
    tokensTogether (refreshAccessToken rt env s store).session := by
  unfold refreshAccessToken
  split
  · exact h
  · cases env.refreshOutcome with
    | error e => rw [logout_session_eq]; rfl
    | ok tr =>
        dsimp only
        split
        · exact h
        · cases env.saveOutcome with
          | error e => rw [logout_session_eq]; rfl
          | ok u =>
              simpa [tokensTogether] using tokensTogether_setTokenState rt _ _ _ _ s

/-- Session states reachable from the provider's initial state through the
three public operations, over every runtime, environment and store. -/
inductive ReachableSession : Session → Prop where
  | init : ReachableSession initialSession
  | loginStep (rt : JsRuntime) (env : LoginEnv) (store : Store) {s : Session} :
      ReachableSession s → ReachableSession (login rt env s store).session
  | refreshStep (rt : JsRuntime) (env : RefreshEnv) (store : Store) {s : Session} :
      ReachableSession s → ReachableSession (refreshAccessToken rt env s store).session
  | logoutStep (env : LogoutEnv) (store : Store) {s : Session} :
      ReachableSession s → ReachableSession (logout env s store).session

/-- C1: in every session state reachable through `login`,
`refreshAccessToken` and `logout`, `accessToken` and `refreshToken` are both
present or both absent; every successful `login`/`refreshAccessToken` (which
updates the token cells exactly by running `setTokenState`) leaves both
present, and `logout` leaves both absent. -/
theorem c1_tokens_both_or_neither :
    (∀ s, ReachableSession s → tokensTogether s)
    ∧ (∀ (rt : JsRuntime) (a r : String) (ae re : Int) (s : Session),
        (setTokenState rt a r ae re s).accessToken.isSome = true ∧
        (setTokenState rt a r ae re s).refreshToken.isSome = true)
    ∧ (∀ (env : LogoutEnv) (s : Session) (store : Store),
        (logout env s store).session.accessToken = none ∧
        (logout env s store).session.refreshToken = none) := by
  refine ⟨?_, ?_, ?_⟩
  · intro s hs
    induction hs with
    | init => rfl
    | loginStep rt env store h ih => exact tokensTogether_login rt env _ store ih
    | refreshStep rt env store h ih => exact tokensTogether_refresh rt env _ store ih
    | logoutStep env store h ih => rw [logout_session_eq]; rfl
  · intro rt a r ae re s
    exact ⟨by simp [setTokenState_accessToken], by simp [setTokenState_refreshToken]⟩
  · intro env s store
    rw [logout_session_eq]
    exact ⟨rfl, rfl⟩

/-- C1 witness: the invariant evaluated on a concrete reachable state (a
logout from the initial state). -/
theorem c1_tokens_both_or_neither_witness :
    tokensTogether (logout okLogoutEnv initialSession []).session :=
  c1_tokens_both_or_neither.1 _
    (ReachableSession.logoutStep okLogoutEnv [] ReachableSession.init)

/-- C2: with a refresh token on hand, a rejected token-endpoint refresh call
forces logout: the session loses all token fields and the user, and the
persisted entry is deleted from the secure store. -/
theorem c2_refresh_failure_forces_logout (rt : JsRuntime) (env : RefreshEnv)
    (s : Session) (store : Store) (rtok e : String)
    (hrt : s.refreshToken = some rtok)
    (hfail : env.refreshOutcome = .error e)
    (hdel : env.logoutEnv.deleteOutcome = .ok ()) :
    (refreshAccessToken rt env s store).session.accessToken = none
    ∧ (refreshAccessToken rt env s store).session.refreshToken = none
    ∧ (refreshAccessToken rt env s store).session.user = none
    ∧ (refreshAccessToken rt env s store).session.accessTokenExpiresAt = none
    ∧ (refreshAccessToken rt env s store).session.refreshTokenExpiresAt = none
    ∧ getItemAsync (refreshAccessToken rt env s store).store TOKENS_KEY = none := by
  unfold refreshAccessToken
  rw [hrt, hfail]
  dsimp only
  rw [logout_session_eq]
  unfold logout
  rw [hdel]
  exact ⟨rfl, rfl, rfl, rfl, rfl,
    by simpa [clearTokens] using getItemAsync_deleteItemAsync store TOKENS_KEY⟩

/-- C2 witness: a concrete authenticated session, a rejecting refresh call,
a store holding the persisted blob. -/
theorem c2_refresh_failure_forces_logout_witness :
    sampleAuthedSession.refreshToken = some "R"
    ∧ (refreshAccessToken trivialRuntime
        { refreshOutcome := .error "network", saveOutcome := .ok (),
          logoutEnv := okLogoutEnv, now := 0 }
        sampleAuthedSession sampleStore).session.accessToken = none
    ∧ getItemAsync (refreshAccessToken trivialRuntime
        { refreshOutcome := .error "network", saveOutcome := .ok (),
          logoutEnv := okLogoutEnv, now := 0 }
        sampleAuthedSession sampleStore).store TOKENS_KEY = none := by
  refine ⟨by decide, ?_, ?_⟩
  · exact (c2_refresh_failure_forces_logout trivialRuntime _ sampleAuthedSession
      sampleStore "R" "network" (by decide) (by decide) (by decide)).1
  · exact (c2_refresh_failure_forces_logout trivialRuntime _ sampleAuthedSession
      sampleStore "R" "network" (by decide) (by decide) (by decide)).2.2.2.2.2

/-- C7: `logout` on an already-unauthenticated session resolves normally and
leaves the session unauthenticated with every token field absent and the
persisted entry deleted. -/
theorem c7_logout_idempotent (env : LogoutEnv) (s : Session) (store : Store)
    (_ha : s.accessToken = none) (_hr : s.refreshToken = none)
    (hdel : env.deleteOutcome = .ok ()) :
    (logout env s store).outcome = .ok ()
    ∧ (logout env s store).session = loggedOutSession
    ∧ getItemAsync (logout env s store).store TOKENS_KEY = none := by
  refine ⟨logout_outcome_ok env s store, logout_session_eq env s store, ?_⟩
  unfold logout
  rw [hdel]
  simpa [clearTokens] using getItemAsync_deleteItemAsync store TOKENS_KEY

/-- C7 witness: `logout` on the concrete unauthenticated state with a
leftover persisted blob. -/
theorem c7_logout_idempotent_witness :
    loggedOutSession.accessToken = none
    ∧ (logout okLogoutEnv loggedOutSession sampleStore).outcome = .ok ()
    ∧ (logout okLogoutEnv loggedOutSession sampleStore).session = loggedOutSession
    ∧ getItemAsync (logout okLogoutEnv loggedOutSession sampleStore).store
        TOKENS_KEY = none := by
  have h := c7_logout_idempotent okLogoutEnv loggedOutSession sampleStore
    (by decide) (by decide) (by decide)
  exact ⟨by decide, h.1, h.2.1, h.2.2⟩

/-- C10: when the new access token is not a decodable three-part JWT,
`setTokenState` leaves `user` unchanged while still installing the new
access token. -/
theorem c10_undecodable_token_keeps_user (rt : JsRuntime)
    (access refresh : String) (ae re : Int) (s : Session)
    (h : decodeJWT rt access = none) :
    (setTokenState rt access refresh ae re s).user = s.user
    ∧ (setTokenState rt access refresh ae re s).accessToken = some access := by
  unfold setTokenState
  rw [h]
  exact ⟨rfl, rfl⟩

/-- C10 witness: a one-segment access token decodes to `null` under any
payload parser, so the previous user survives. -/
theorem c10_undecodable_token_keeps_user_witness :
    decodeJWT trivialRuntime "opaque-token" = none
    ∧ (setTokenState trivialRuntime "opaque-token" "R" 1000 2000
        { sampleAuthedSession with user := some { sub := "alice" } }).user
        = some { sub := "alice" }
    ∧ (setTokenState trivialRuntime "opaque-token" "R" 1000 2000
        { sampleAuthedSession with user := some { sub := "alice" } }).accessToken
        = some "opaque-token" := by
  have h := c10_undecodable_token_keeps_user trivialRuntime "opaque-token" "R"
    1000 2000 { sampleAuthedSession with user := some { sub := "alice" } }
    (by decide)
  exact ⟨by decide, h.1, h.2⟩

/-- C8: whatever the outcomes of the provider, browser and store calls,
`login`, `logout` and `refreshAccessToken` resolve normally, and `login` and
`logout` always finish with `isLoading` cleared. -/
theorem c8_operations_resolve_normally :
    (∀ (rt : JsRuntime) (env : LoginEnv) (s : Session) (store : Store),
        (login rt env s store).outcome = .ok ()
        ∧ (login rt env s store).session.isLoading = false)
    ∧ (∀ (env : LogoutEnv) (s : Session) (store : Store),
        (logout env s store).outcome = .ok ()
        ∧ (logout env s store).session.isLoading = false)
    ∧ (∀ (rt : JsRuntime) (env : RefreshEnv) (s : Session) (store : Store),
        (refreshAccessToken rt env s store).outcome = .ok ()) := by
  refine ⟨?_, ?_, ?_⟩
  · intro rt env s store
    unfold login
    cases env.promptOutcome with
    | error e => exact ⟨rfl, rfl⟩
    | ok result =>
        dsimp only
        split
        · cases env.exchangeOutcome with
          | error e => exact ⟨rfl, rfl⟩
          | ok tr =>
              dsimp only
              split
              · cases env.saveOutcome with
                | error e => exact ⟨rfl, rfl⟩
                | ok u => exact ⟨rfl, rfl⟩
              · exact ⟨rfl, rfl⟩
        · exact ⟨rfl, rfl⟩
  · intro env s store
    refine ⟨logout_outcome_ok env s store, ?_⟩
    rw [logout_session_eq]
    rfl
  · intro rt env s store
    unfold refreshAccessToken
    split
    · rfl
    · cases env.refreshOutcome with
      | error e => exact logout_outcome_ok _ _ _
      | ok tr =>
          dsimp only
          split
          · rfl
          · cases env.saveOutcome with
            | error e => exact logout_outcome_ok _ _ _
            | ok u => rfl

/-- C3: with an access token and expiry on hand, `checkTokenExpiration`
delegates to `refreshAccessToken` exactly when the time to expiry is below
120000 ms (zero and negative included), and is a no-op at 120000 ms or more
or without an access token. -/
theorem c3_refresh_trigger_boundary (rt : JsRuntime) (env : RefreshEnv)
    (store : Store) :
    (∀ (s : Session) (a : String) (exp : Int),
        s.accessToken = some a → s.accessTokenExpiresAt = some exp →
        ((exp - env.now < 120000 →
            checkTokenExpiration rt env s store = refreshAccessToken rt env s store)
         ∧ (120000 ≤ exp - env.now →
            checkTokenExpiration rt env s store =
              { session := s, store := store, outcome := .ok () })))
    ∧ (∀ s : Session, s.accessToken = none →
        checkTokenExpiration rt env s store =
          { session := s, store := store, outcome := .ok () }) := by
  constructor
  · intro s a exp ha he
    constructor
    · intro hlt
      unfold checkTokenExpiration
      rw [ha, he]
      dsimp only
      by_cases h0 : exp - env.now > 0
      · rw [if_pos ⟨hlt, h0⟩]
      · rw [if_neg (fun hc => h0 hc.2), if_pos (by omega)]
    · intro hge
      unfold checkTokenExpiration
      rw [ha, he]
      dsimp only
      rw [if_neg (fun hc => absurd hc.1 (by omega)), if_neg (by omega)]
  · intro s ha
    unfold checkTokenExpiration
    rw [ha]

/-- A concrete refresh environment for exercising the boundary. -/
def sampleRefreshEnv : RefreshEnv :=
  { refreshOutcome := .ok { accessToken := some "A2" },
    saveOutcome := .ok (), logoutEnv := okLogoutEnv, now := 0 }

/-- C3 witness: at `now + 119s` the check is the refresh call; at
`now + 121s` it is a no-op. -/
theorem c3_refresh_trigger_boundary_witness :
    ({ sampleAuthedSession with accessTokenExpiresAt := some 119000
        : Session }).accessToken = some "A"
    ∧ checkTokenExpiration trivialRuntime sampleRefreshEnv
        { sampleAuthedSession with accessTokenExpiresAt := some 119000 } []
        = refreshAccessToken trivialRuntime sampleRefreshEnv
            { sampleAuthedSession with accessTokenExpiresAt := some 119000 } []
    ∧ checkTokenExpiration trivialRuntime sampleRefreshEnv
        { sampleAuthedSession with accessTokenExpiresAt := some 121000 } []
        = { session := { sampleAuthedSession with accessTokenExpiresAt := some 121000 },
            store := [], outcome := .ok () } := by
  have h1 := (c3_refresh_trigger_boundary trivialRuntime sampleRefreshEnv []).1
    { sampleAuthedSession with accessTokenExpiresAt := some 119000 } "A" 119000
    (by decide) (by decide)
  have h2 := (c3_refresh_trigger_boundary trivialRuntime sampleRefreshEnv []).1
    { sampleAuthedSession with accessTokenExpiresAt := some 121000 } "A" 121000
    (by decide) (by decide)
  exact ⟨by decide, h1.1 (by decide), h2.2 (by decide)⟩

/-- C4 counterexample: a token response carrying `expiresIn: 0` — the field
is present, yet the resulting expiry is `now + 300000` ms rather than
`now + 0 * 1000`: `tokenResponse.expiresIn ? ... : ...` routes a
present-but-zero value to the 5-minute default. -/
theorem c4_counterexample_expiresIn_zero :
    (refreshAccessToken trivialRuntime
      { refreshOutcome := .ok
          { accessToken := some "A2", refreshToken := none, expiresIn := some 0 },
        saveOutcome := .ok (), logoutEnv := okLogoutEnv, now := 0 }
      sampleAuthedSession sampleStore).session.accessTokenExpiresAt
      = some 300000
    ∧ (300000 : Int) ≠ 0 + (0 : Int) * 1000 :=
  ⟨by decide, by decide⟩

/-- C4 (amended): in a completed refresh or code exchange,
`accessTokenExpiresAt` is `now + expiresIn` seconds when `expiresIn` is
present and nonzero, and `now + 300` seconds when it is absent or zero. -/
theorem c4_expiry_defaulting (rt : JsRuntime) :
    (∀ (env : RefreshEnv) (s : Session) (store : Store) (rtok a : String)
        (tr : TokenResponse),
        s.refreshToken = some rtok →
        env.refreshOutcome = .ok tr →
        truthyString tr.accessToken = some a →
        env.saveOutcome = .ok () →
        ((∀ e : Nat, tr.expiresIn = some e → e ≠ 0 →
            (refreshAccessToken rt env s store).session.accessTokenExpiresAt
              = some (env.now + (e : Int) * 1000))
         ∧ (tr.expiresIn = none ∨ tr.expiresIn = some 0 →
            (refreshAccessToken rt env s store).session.accessTokenExpiresAt
              = some (env.now + 300000))))
    ∧ (∀ (env : LoginEnv) (s : Session) (store : Store)
        (result : AuthRequestResult) (tr : TokenResponse) (c a r : String),
        env.promptOutcome = .ok result →
        result.rtype = "success" →
        truthyString result.code = some c →
        env.exchangeOutcome = .ok tr →
        truthyString tr.accessToken = some a →
        truthyString tr.refreshToken = some r →
        env.saveOutcome = .ok () →
        ((∀ e : Nat, tr.expiresIn = some e → e ≠ 0 →
            (login rt env s store).session.accessTokenExpiresAt
              = some (env.now + (e : Int) * 1000))
         ∧ (tr.expiresIn = none ∨ tr.expiresIn = some 0 →
            (login rt env s store).session.accessTokenExpiresAt
              = some (env.now + 300000)))) := by
  constructor
  · intro env s store rtok a tr hrt hok hacc hsave
    unfold refreshAccessToken
    rw [hrt]
    dsimp only
    rw [hok]
    dsimp only
    rw [hacc]
    dsimp only
    rw [hsave]
    dsimp only
    constructor
    · intro e he he0
      rw [he]
      simp only [truthyNat, if_neg he0]
      simp [setTokenState_accessExpiry]
    · intro hd
      rcases hd with hd | hd <;> rw [hd] <;> simp [truthyNat, setTokenState_accessExpiry]
  · intro env s store result tr c a r hprompt htype hcode hex hacc href hsave
    unfold login
    rw [hprompt]
    dsimp only
    rw [if_pos ⟨htype, by rw [hcode]; rfl⟩]
    rw [hex]
    dsimp only
    rw [hacc, href]
    dsimp only
    rw [hsave]
    dsimp only
    constructor
    · intro e he he0
      rw [he]
      simp only [truthyNat, if_neg he0]
      simp [setTokenState_accessExpiry]
    · intro hd
      rcases hd with hd | hd <;> rw [hd] <;> simp [truthyNat, setTokenState_accessExpiry]

/-- C4 amended-claim witness: a refresh with `expiresIn: 60` lands at
`now + 60000` ms; one with `expiresIn` absent lands at `now + 300000` ms. -/
theorem c4_expiry_defaulting_witness :
    (refreshAccessToken trivialRuntime
      { refreshOutcome := .ok
          { accessToken := some "A2", refreshToken := none, expiresIn := some 60 },
        saveOutcome := .ok (), logoutEnv := okLogoutEnv, now := 0 }
      sampleAuthedSession sampleStore).session.accessTokenExpiresAt
      = some (0 + (60 : Int) * 1000)
    ∧ (refreshAccessToken trivialRuntime
      { refreshOutcome := .ok
          { accessToken := some "A2", refreshToken := none, expiresIn := none },
        saveOutcome := .ok (), logoutEnv := okLogoutEnv, now := 0 }
      sampleAuthedSession sampleStore).session.accessTokenExpiresAt
      = some (0 + 300000) := by
  constructor
  · exact ((c4_expiry_defaulting trivialRuntime).1
      { refreshOutcome := .ok
          { accessToken := some "A2", refreshToken := none, expiresIn := some 60 },
        saveOutcome := .ok (), logoutEnv := okLogoutEnv, now := 0 }
      sampleAuthedSession sampleStore "R" "A2"
      { accessToken := some "A2", refreshToken := none, expiresIn := some 60 }
      (by decide) (by decide) (by decide) (by decide)).1
      60 (by decide) (by decide)
  · exact ((c4_expiry_defaulting trivialRuntime).1
      { refreshOutcome := .ok
          { accessToken := some "A2", refreshToken := none, expiresIn := none },
        saveOutcome := .ok (), logoutEnv := okLogoutEnv, now := 0 }
      sampleAuthedSession sampleStore "R" "A2"
      { accessToken := some "A2", refreshToken := none, expiresIn := none }
      (by decide) (by decide) (by decide) (by decide)).2
      (Or.inl (by decide))

/-- C5: when the persisted record's refresh expiry parses to an instant not
later than `now`, cold-start restore deletes the persisted entry and leaves
the session unauthenticated. -/
theorem c5_coldstart_expired_refresh_clears (rt : JsRuntime) (env : InitEnv)
    (store : Store) (blob : String) (st : StoredTokens)
    (hget : env.getThrows = false)
    (hstore : getItemAsync store TOKENS_KEY = some blob)
    (hparse : rt.parseStoredTokens blob = some st)
    (hexp : rt.parseDate st.refreshTokenExpiresAt ≤ env.now)
    (hdel : env.deleteOutcome = .ok ()) :
    (initializeAuth rt env store).session = { initialSession with isLoading := false }
    ∧ getItemAsync (initializeAuth rt env store).store TOKENS_KEY = none := by
  unfold initializeAuth loadTokens
  rw [hget]
  simp only [Bool.false_eq_true, if_false]
  rw [hstore]
  dsimp only [Option.bind]
  rw [hparse]
  dsimp only
  rw [if_neg (by omega)]
  rw [hdel]
  exact ⟨rfl,
    by simpa [clearTokens] using getItemAsync_deleteItemAsync store TOKENS_KEY⟩

/-- C5 witness: a concrete persisted record whose refresh expiry (2000 ms)
is behind the clock (5000 ms). -/
theorem c5_coldstart_expired_refresh_clears_witness :
    parsingRuntime.parseDate sampleStoredTokens.refreshTokenExpiresAt ≤ 5000
    ∧ (initializeAuth parsingRuntime
        { getThrows := false, deleteOutcome := .ok (), now := 5000 }
        sampleStore).session = { initialSession with isLoading := false }
    ∧ getItemAsync (initializeAuth parsingRuntime
        { getThrows := false, deleteOutcome := .ok (), now := 5000 }
        sampleStore).store TOKENS_KEY = none := by
  have h := c5_coldstart_expired_refresh_clears parsingRuntime
    { getThrows := false, deleteOutcome := .ok (), now := 5000 }
    sampleStore "blob" sampleStoredTokens (by decide) (by decide) (by decide)
    (by decide) (by decide)
  exact ⟨by decide, h.1, h.2⟩

/-- A concrete environment for a fully successful login. -/
def c6LoginEnv : LoginEnv :=
  { promptOutcome := .ok { rtype := "success", code := some "authcode" },
    exchangeOutcome := .ok
      { accessToken := some "A", refreshToken := some "R", expiresIn := some 300 },
    saveOutcome := .ok (), now := 0 }

/-- C6 counterexample: a successful login from an empty store leaves exactly
one secure-store entry — the composite blob under `auth_tokens` — not four
independently addressable entries. -/
theorem c6_counterexample_single_entry :
    ((login trivialRuntime c6LoginEnv initialSession []).store).map Prod.fst
      = [TOKENS_KEY]
    ∧ ((login trivialRuntime c6LoginEnv initialSession []).store).length ≠ 4 :=
  ⟨by decide, by decide⟩

/-- C6 (amended): persistence is one secure-store entry under `auth_tokens`
holding the JSON serialization of a record with all four fields: every
completed login and refresh writes that single entry (its record carrying
the new tokens), and logout and cold-start expiry-cleanup delete it. -/
theorem c6_composite_blob_persistence (rt : JsRuntime) :
    (∀ (env : LoginEnv) (s : Session) (store : Store)
        (result : AuthRequestResult) (tr : TokenResponse) (c a r : String),
        env.promptOutcome = .ok result →
        result.rtype = "success" →
        truthyString result.code = some c →
        env.exchangeOutcome = .ok tr →
        truthyString tr.accessToken = some a →
        truthyString tr.refreshToken = some r →
        env.saveOutcome = .ok () →
        ∃ rec : StoredTokens,
          (login rt env s store).store
            = setItemAsync store TOKENS_KEY (rt.stringifyTokens rec)
          ∧ rec.accessToken = a ∧ rec.refreshToken = r)
    ∧ (∀ (env : RefreshEnv) (s : Session) (store : Store) (rtok a : String)
        (tr : TokenResponse),
        s.refreshToken = some rtok →
        env.refreshOutcome = .ok tr →
        truthyString tr.accessToken = some a →
        env.saveOutcome = .ok () →
        ∃ rec : StoredTokens,
          (refreshAccessToken rt env s store).store
            = setItemAsync store TOKENS_KEY (rt.stringifyTokens rec)
          ∧ rec.accessToken = a)
    ∧ (∀ (env : LogoutEnv) (s : Session) (store : Store),
        env.deleteOutcome = .ok () →
        getItemAsync (logout env s store).store TOKENS_KEY = none)
    ∧ (∀ (env : InitEnv) (store : Store) (blob : String) (st : StoredTokens),
        env.getThrows = false →
        getItemAsync store TOKENS_KEY = some blob →
        rt.parseStoredTokens blob = some st →
        rt.parseDate st.refreshTokenExpiresAt ≤ env.now →
        env.deleteOutcome = .ok () →
        getItemAsync (initializeAuth rt env store).store TOKENS_KEY = none) := by
  refine ⟨?_, ?_, ?_, ?_⟩
  · intro env s store result tr c a r hprompt htype hcode hex hacc href hsave
    unfold login
    rw [hprompt]
    dsimp only
    rw [if_pos ⟨htype, by rw [hcode]; rfl⟩]
    rw [hex]
    dsimp only
    rw [hacc, href]
    dsimp only
    rw [hsave]
    dsimp only
    exact ⟨_, rfl, rfl, rfl⟩
  · intro env s store rtok a tr hrt hok hacc hsave
    unfold refreshAccessToken
    rw [hrt]
    dsimp only
    rw [hok]
    dsimp only
    rw [hacc]
    dsimp only
    rw [hsave]
    dsimp only
    exact ⟨_, rfl, rfl⟩
  · intro env s store hdel
    unfold logout
    rw [hdel]
    simpa [clearTokens] using getItemAsync_deleteItemAsync store TOKENS_KEY
  · intro env store blob st hget hstore hparse hexp hdel
    unfold initializeAuth loadTokens
    rw [hget]
    simp only [Bool.false_eq_true, if_false]
    rw [hstore]
    dsimp only [Option.bind]
    rw [hparse]
    dsimp only
    rw [if_neg (by omega)]
    rw [hdel]
    simpa [clearTokens] using getItemAsync_deleteItemAsync store TOKENS_KEY

/-- C6 amended-claim witness: the concrete successful login writes the one
composite entry carrying both tokens. -/
theorem c6_composite_blob_persistence_witness :
    ∃ rec : StoredTokens,
      (login trivialRuntime c6LoginEnv initialSession []).store
        = setItemAsync [] TOKENS_KEY (trivialRuntime.stringifyTokens rec)
      ∧ rec.accessToken = "A" ∧ rec.refreshToken = "R" :=
  (c6_composite_blob_persistence trivialRuntime).1 c6LoginEnv initialSession []
    { rtype := "success", code := some "authcode" }
    { accessToken := some "A", refreshToken := some "R", expiresIn := some 300 }
    "authcode" "A" "R" (by decide) (by decide) (by decide) (by decide)
    (by decide) (by decide) (by decide)

/-- The event-loop state in which both refresh triggers have just fired
against an authenticated session whose access token expires in 60 s. -/
def c9InitialConc : ConcState :=
  { session := { sampleAuthedSession with accessTokenExpiresAt := some 60000 },
    inFlight := 0, issued := 0, maxInFlight := 0,
    timerTask := .ready, resumeTask := .ready }

/-- C9 failing interleaving: the timer tick runs to its token-endpoint call
and suspends; the foreground-resume trigger then runs against the unchanged
session and issues a second call — two requests are simultaneously in
flight, because `AuthContext.tsx` has no in-flight guard. -/
theorem c9_two_inflight_refreshes :
    (runSchedule trivialRuntime 0 { accessToken := some "A2" } c9InitialConc
      [.timer, .resume]).maxInFlight = 2
    ∧ (runSchedule trivialRuntime 0 { accessToken := some "A2" } c9InitialConc
      [.timer, .resume]).issued = 2 :=
  ⟨by decide, by decide⟩

end MpcAuth
